import Mathlib

/-!
Verification of the interactive terminal format-selection and progress-display
subsystem of the ytdl command-line front end.

The definitions below are a shallow embedding of the C sources:
  * the download-progress model and ring-buffer speed estimator
    (`ui_calculate_speed`, `ui_update_progress`, `ui_show_progress`,
    `get_spinner_char`, `ui_show_indeterminate_progress`),
  * the scrollable format-list state and its keyboard-driven selection loop
    (`ui_display_formats`, `update_format_display`, `handle_format_shortcut`,
    `ui_select_format_interactive`).

Modelling conventions:
  * C `time_t`, `long long` and `int` values are modelled as `Int`
    (no overflow occurs in the reasoned-about ranges);
  * C `double` arithmetic is modelled exactly over `ℚ` (the claims under
    consideration only depend on sign tests and exact ratios);
  * `time (NULL)` is passed as an explicit `now` argument;
  * NULL-able C pointers/JSON fields become `Option`;
  * ncurses drawing calls are erased; where a claim is about which rendering
    mode a routine selects, the draw-call choice is reified as `RenderMode`.
-/

namespace Ytdl

/-- SPEED_SAMPLE_SIZE from terminal_ui.h. -/
def SPEED_SAMPLE_SIZE : Int := 10

/-- One entry of the speed-calculation ring buffer of `DownloadProgress`
(`struct { time_t timestamp; long long bytes; }`). A zero-initialized C
struct corresponds to `⟨0, 0⟩`. -/
structure Sample where
  timestamp : Int
  bytes : Int
deriving DecidableEq, Repr

/-- The `DownloadProgress` struct of terminal_ui.h.  The ring buffer
`samples[SPEED_SAMPLE_SIZE]` is a 10-element list (kept at length 10 by
construction); `download_speed` (a C double) is modelled as `ℚ`. -/
structure DownloadProgress where
  downloaded_bytes : Int
  total_bytes : Int
  download_speed : ℚ
  start_time : Int
  estimated_completion : Int
  current_stage : String
  samples : List Sample
  sample_index : Int
  last_update : Int
deriving DecidableEq, Repr

/-- A zero-initialized `DownloadProgress` (C `= { 0 }`). -/
def initProgress : DownloadProgress :=
  { downloaded_bytes := 0
    total_bytes := 0
    download_speed := 0
    start_time := 0
    estimated_completion := 0
    current_stage := ""
    samples := List.replicate 10 ⟨0, 0⟩
    sample_index := 0
    last_update := 0 }

/-- Read `samples[i]` (indices used by the code are always in `[0, 9]`;
out-of-range reads never happen on reachable states). -/
def getSample (l : List Sample) (i : Int) : Sample :=
  l.getD i.toNat ⟨0, 0⟩

/-- Write `samples[i] = s`. -/
def setSample (l : List Sample) (i : Int) (s : Sample) : List Sample :=
  l.set i.toNat s

/-- `ui_calculate_speed` from the progress/speed translation unit.  Faithful
to the C source: `oldest_idx` is the fixed index 0, `newest_idx` is
`(sample_index - 1 + SPEED_SAMPLE_SIZE) % SPEED_SAMPLE_SIZE`, a timestamp of
0 in either slot is treated as "fewer than 2 samples", and non-positive time
deltas or negative byte deltas yield 0. -/
def ui_calculate_speed (p : DownloadProgress) : ℚ :=
  if p.sample_index = 0 then 0
  else
    let oldest := getSample p.samples 0
    let newest := getSample p.samples ((p.sample_index - 1 + SPEED_SAMPLE_SIZE) % SPEED_SAMPLE_SIZE)
    if oldest.timestamp = 0 ∨ newest.timestamp = 0 then 0
    else
      let time_diff : ℚ := ((newest.timestamp - oldest.timestamp : Int) : ℚ)
      if time_diff ≤ 0 then 0
      else
        let byte_diff : Int := newest.bytes - oldest.bytes
        if byte_diff < 0 then 0
        else (byte_diff : ℚ) / time_diff

/-- Truncation toward zero, the semantics of the C cast `(int)` applied to a
double. -/
def ratTrunc (q : ℚ) : Int :=
  if 0 ≤ q then ⌊q⌋ else ⌈q⌉

/-- `ui_update_progress` from the progress/speed translation unit, with
`time (NULL)` passed in as `now`.  Stores the counters verbatim, appends a
ring-buffer sample only when `now` differs from the timestamp at the current
write cursor, recomputes the speed, and recomputes
`estimated_completion = now + (int)((total - downloaded) / speed)` only when
the recomputed speed is positive and `total > downloaded`. -/
def ui_update_progress (p : DownloadProgress) (downloaded total now : Int) :
    DownloadProgress :=
  let p1 := { p with downloaded_bytes := downloaded, total_bytes := total }
  let p2 :=
    if now ≠ (getSample p1.samples p1.sample_index).timestamp then
      let idx := (p1.sample_index + 1) % SPEED_SAMPLE_SIZE
      { p1 with sample_index := idx, samples := setSample p1.samples idx ⟨now, downloaded⟩ }
    else p1
  let p3 := { p2 with download_speed := ui_calculate_speed p2 }
  let p4 :=
    if (0 : ℚ) < p3.download_speed ∧ downloaded < total then
      let remaining := total - downloaded
      let eta_seconds := ratTrunc ((remaining : ℚ) / p3.download_speed)
      { p3 with estimated_completion := now + eta_seconds }
    else p3
  { p4 with last_update := now }

/-- The rendering mode chosen by a content-panel progress render: either the
numeric progress bar with its percentage, or the indeterminate spinner view
with its spinner character. -/
inductive RenderMode where
  | bar (percent : ℚ)
  | spinner (c : Char)
deriving DecidableEq, Repr

/-- Whether a render mode is the indeterminate/spinner mode. -/
def is_indeterminate : RenderMode → Bool
  | RenderMode.bar _ => false
  | RenderMode.spinner _ => true

/-- The rendering mode produced by `ui_show_progress`.  The C routine
unconditionally calls `draw_progress_bar`, with
`percent = downloaded / total * 100` when `total_bytes > 0` and
`percent = 0.0` otherwise (it never draws the spinner). -/
def ui_show_progress_mode (p : DownloadProgress) : RenderMode :=
  RenderMode.bar
    (if 0 < p.total_bytes
     then (p.downloaded_bytes : ℚ) / (p.total_bytes : ℚ) * 100
     else 0)

/-- The spinner character table of `get_spinner_char`. -/
def spinner_chars : List Char := ['|', '/', '-', '\\']

/-- `get_spinner_char` from the progress translation unit:
`spinner[frame % 4]`.  The claim domain is non-negative frames, so the frame
is a `Nat`. -/
def get_spinner_char (frame : Nat) : Char :=
  spinner_chars.get ⟨frame % 4, Nat.mod_lt _ (by decide)⟩

/-- The rendering mode produced by `ui_show_indeterminate_progress`: the
spinner view at the given animation frame. -/
def ui_show_indeterminate_progress_mode (frame : Nat) : RenderMode :=
  RenderMode.spinner (get_spinner_char frame)

/-- One variant descriptor (one element of the JSON `formats` array).  Each
field may be absent or of the wrong JSON type, in which case the C accessors
substitute a sentinel; that possibility is modelled with `Option`. -/
structure Format where
  format_id : Option String
  resolution : Option String
  ext : Option String
  filesize : Option Int
deriving DecidableEq, Repr

/-- The `FormatListState` struct of terminal_ui.h.  `formats = none` models a
NULL `json_t *formats` pointer (the zero-initialized struct main.c starts
from); the ncurses pad fields are unused by the modelled routines and
omitted. -/
structure FormatListState where
  visible_start : Int
  visible_lines : Int
  selected_index : Int
  total_formats : Int
  formats : Option (List Format)
deriving DecidableEq, Repr

/-- A zero-initialized `FormatListState` (C `= { 0 }` in main.c). -/
def initListState : FormatListState :=
  { visible_start := 0
    visible_lines := 0
    selected_index := 0
    total_formats := 0
    formats := none }

/-- State effect of `ui_display_formats` (drawing erased).  A NULL `formats`
argument makes the C routine return -1 without touching the state.  Otherwise
it initializes the list state on first use (`list_state->formats == NULL`)
and recomputes `visible_lines = content_height - 4` on every call; `h` is
`getmaxy (win)`, the content-panel height. -/
def ui_display_formats (h : Int) (formats : Option (List Format))
    (ls : FormatListState) : FormatListState :=
  match formats with
  | none => ls
  | some fs =>
    let ls1 :=
      match ls.formats with
      | none =>
        { ls with formats := some fs, total_formats := (fs.length : Int),
                  selected_index := 0, visible_start := 0 }
      | some _ => ls
    { ls1 with visible_lines := h - 4 }

/-- `update_format_display` (drawing erased): scroll to keep the selection
visible, then redraw via `ui_display_formats` (which re-derives
`visible_lines` from the content-panel height `h`). -/
def update_format_display (h : Int) (ls : FormatListState) : FormatListState :=
  let ls1 :=
    if ls.selected_index < ls.visible_start then
      { ls with visible_start := ls.selected_index }
    else if ls.visible_start + ls.visible_lines ≤ ls.selected_index then
      { ls with visible_start := ls.selected_index - ls.visible_lines + 1 }
    else ls
  ui_display_formats h ls1.formats ls1

/-- The resolution string the `'a'` shortcut sees for an array slot:
`json_array_get` out of range or a missing/non-string `"resolution"` field
both produce the `"N/A"` sentinel. -/
def resolution_of (o : Option Format) : String :=
  (o.bind Format.resolution).getD "N/A"

/-- Does `needle` occur as a contiguous run of `hay`, starting at any
position?  (The scan C `strstr` performs.) -/
def occurs_in : List Char → List Char → Bool
  | [], needle => needle.isEmpty
  | h :: t, needle => needle.isPrefixOf (h :: t) || occurs_in t needle

/-- C `strstr (hay, needle) != NULL`: `needle` occurs as a substring of
`hay`. -/
def c_strstr (hay needle : String) : Bool :=
  occurs_in hay.data needle.data

/-- The per-slot test of the `'a'` shortcut:
`strcmp (resolution, "N/A") == 0 || strstr (resolution, "audio")`. -/
def is_audio_format (o : Option Format) : Bool :=
  resolution_of o = "N/A" || c_strstr (resolution_of o) "audio"

/-- The `for (i = 0; i < total_formats; i++)` loop of the `'a'` shortcut in
`handle_format_shortcut`, scanning from position `i` with `r` iterations
left: index of the first slot satisfying `is_audio_format`. -/
def find_audio_index (fs : List Format) (i : Nat) : Nat → Option Nat
  | 0 => none
  | r + 1 =>
    if is_audio_format (fs.get? i) then some i
    else find_audio_index fs (i + 1) r

/-- `handle_format_shortcut`: returns the C result (1 ⇒ handled) paired with
the updated list state.  `ch` is the raw character code
(`'b'` = 98, `'B'` = 66, `'w'` = 119, `'W'` = 87, `'a'` = 97, `'A'` = 65,
digits `'1'`–`'9'` = 49–57). -/
def handle_format_shortcut (ch : Int) (ls : FormatListState) :
    Bool × FormatListState :=
  if ch = 98 ∨ ch = 66 then
    (true, { ls with selected_index := 0 })
  else if ch = 119 ∨ ch = 87 then
    (true, { ls with selected_index := ls.total_formats - 1 })
  else if ch = 97 ∨ ch = 65 then
    match find_audio_index (ls.formats.getD []) 0 ls.total_formats.toNat with
    | some i => (true, { ls with selected_index := (i : Int) })
    | none => (false, ls)
  else if 49 ≤ ch ∧ ch ≤ 57 then
    let index := ch - 49
    if index < ls.total_formats then (true, { ls with selected_index := index })
    else (false, ls)
  else (false, ls)

/-! ncurses key codes used by the selection loop. -/

def KEY_DOWN : Int := 258
def KEY_UP : Int := 259
def KEY_HOME : Int := 262
def KEY_NPAGE : Int := 338
def KEY_PPAGE : Int := 339
def KEY_ENTER : Int := 343
def KEY_END : Int := 360

/-- The `KEY_UP` case of `ui_select_format_interactive` (also the `'A'` case
of the raw arrow escape sequence): decrement the selection if it is
positive, then redraw. -/
def arrow_up (h : Int) (ls : FormatListState) : FormatListState :=
  if 0 < ls.selected_index then
    update_format_display h { ls with selected_index := ls.selected_index - 1 }
  else ls

/-- The `KEY_DOWN` case (also the `'B'` escape-sequence case): increment the
selection if it is below `total_formats - 1`, then redraw. -/
def arrow_down (h : Int) (ls : FormatListState) : FormatListState :=
  if ls.selected_index < ls.total_formats - 1 then
    update_format_display h { ls with selected_index := ls.selected_index + 1 }
  else ls

/-- The `KEY_PPAGE` case (also `ESC [ 5 ~`): move the selection up by a
viewport, clamp at 0, redraw. -/
def do_page_up (h : Int) (ls : FormatListState) : FormatListState :=
  let s := ls.selected_index - ls.visible_lines
  let s := if s < 0 then 0 else s
  update_format_display h { ls with selected_index := s }

/-- The `KEY_NPAGE` case (also `ESC [ 6 ~`): move the selection down by a
viewport, clamp at `total_formats - 1`, redraw. -/
def do_page_down (h : Int) (ls : FormatListState) : FormatListState :=
  let s := ls.selected_index + ls.visible_lines
  let s := if ls.total_formats ≤ s then ls.total_formats - 1 else s
  update_format_display h { ls with selected_index := s }

/-- The `KEY_HOME` case: jump to index 0 and redraw. -/
def do_home (h : Int) (ls : FormatListState) : FormatListState :=
  update_format_display h { ls with selected_index := 0 }

/-- The `KEY_END` case: jump to the last index and redraw. -/
def do_end (h : Int) (ls : FormatListState) : FormatListState :=
  update_format_display h { ls with selected_index := ls.total_formats - 1 }

/-- The `default` case of the selection loop: consult
`handle_format_shortcut` and redraw only when it reports the key handled. -/
def shortcut_step (h ch : Int) (ls : FormatListState) : FormatListState :=
  let r := handle_format_shortcut ch ls
  if r.1 then update_format_display h r.2 else r.2

/-- The Enter case of the selection loop: `json_array_get` at
`selected_index` (NULL for a negative or out-of-range index), then the
`format_id` string field if present; the C code copies it into the returned
buffer, else leaves the result NULL. -/
def enter_result (ls : FormatListState) : Option String :=
  match ls.formats with
  | none => none
  | some fs =>
    if ls.selected_index < 0 then none
    else (fs.get? ls.selected_index.toNat).bind Format.format_id

/-- One keyboard read observed by the selection loop: either `wgetch`
delivered the code `c`, or it returned `ERR` because the 100 ms
escape-disambiguation window expired with no byte available. -/
inductive KeyEvent where
  | key (c : Int)
  | timeout
deriving DecidableEq, Repr

/-- The `while (selecting)` loop of `ui_select_format_interactive`, driven by
the finite trace of keyboard reads `events`.  The result is `none` when the
trace is exhausted with the loop still running (the C loop would block for
more input), and `some r` when the loop finishes, where `r` is the returned
`char *selected_format` (`none` = NULL).  The ESC case mirrors the C
escape-disambiguation block: a 100 ms timeout cancels the session, `'['`
plus a recognized third byte dispatches the corresponding navigation, and
any other follow-up byte is discarded. -/
def ui_select_loop (h : Int) : List KeyEvent → FormatListState → Option (Option String)
  | [], _ => none
  | KeyEvent.timeout :: rest, ls =>
    -- ERR maps to no switch case; handle_format_shortcut leaves the state alone
    ui_select_loop h rest ls
  | KeyEvent.key c :: rest, ls =>
    if c = KEY_UP then ui_select_loop h rest (arrow_up h ls)
    else if c = KEY_DOWN then ui_select_loop h rest (arrow_down h ls)
    else if c = KEY_PPAGE then ui_select_loop h rest (do_page_up h ls)
    else if c = KEY_NPAGE then ui_select_loop h rest (do_page_down h ls)
    else if c = KEY_HOME then ui_select_loop h rest (do_home h ls)
    else if c = KEY_END then ui_select_loop h rest (do_end h ls)
    else if c = 10 ∨ c = 13 ∨ c = KEY_ENTER then some (enter_result ls)
    else if c = 27 then
      match rest with
      | [] => none
      | KeyEvent.timeout :: _ =>
        -- no follow-up byte within the 100 ms window: standalone ESC, cancel
        some none
      | KeyEvent.key c2 :: rest2 =>
        if c2 = 91 then
          match rest2 with
          | [] => none
          | KeyEvent.timeout :: rest3 =>
            -- third read timed out: no escape-sequence case matches
            ui_select_loop h rest3 ls
          | KeyEvent.key c3 :: rest3 =>
            if c3 = 65 then ui_select_loop h rest3 (arrow_up h ls)
            else if c3 = 66 then ui_select_loop h rest3 (arrow_down h ls)
            else if c3 = 53 then
              match rest3 with
              | [] => none
              | e4 :: rest4 =>
                ui_select_loop h rest4
                  (if e4 = KeyEvent.key 126 then do_page_up h ls else ls)
            else if c3 = 54 then
              match rest3 with
              | [] => none
              | e4 :: rest4 =>
                ui_select_loop h rest4
                  (if e4 = KeyEvent.key 126 then do_page_down h ls else ls)
            else
              -- 'C', 'D' and every unrecognized third byte: no action
              ui_select_loop h rest3 ls
        else
          -- any other follow-up byte after ESC is discarded
          ui_select_loop h rest2 ls
    else if c = 113 ∨ c = 81 then some none
    else ui_select_loop h rest (shortcut_step h c ls)

/-- `ui_select_format_interactive`: NULL state / NULL list state / ncurses
unavailable short-circuit to a NULL return before the loop runs; otherwise
the loop decides the result.  `available` models
`state != NULL && list_state != NULL && state->ncurses_available`. -/
def ui_select_format_interactive (available : Bool) (h : Int)
    (events : List KeyEvent) (ls : FormatListState) : Option (Option String) :=
  if available then ui_select_loop h events ls else some none

/-- One navigation action dispatched by the selection loop (the raw
escape-sequence arrows and page keys dispatch the same transformers as the
decoded key codes; `key c` is any other character, routed through
`handle_format_shortcut`). -/
inductive NavAction where
  | up
  | down
  | pageUp
  | pageDown
  | home
  | toEnd
  | key (c : Int)
deriving DecidableEq, Repr

/-- Dispatch one navigation action exactly as the selection loop does. -/
def apply_nav (h : Int) : NavAction → FormatListState → FormatListState
  | NavAction.up => arrow_up h
  | NavAction.down => arrow_down h
  | NavAction.pageUp => do_page_up h
  | NavAction.pageDown => do_page_down h
  | NavAction.home => do_home h
  | NavAction.toEnd => do_end h
  | NavAction.key c => shortcut_step h c

/-- The list state reached after a sequence of navigation actions, starting
from main.c's initial render (`FormatListState list_state = { 0 }` followed
by `ui_display_formats`), with content-panel height `h`. -/
def run_nav (h : Int) (fmts : List Format) (acts : List NavAction) :
    FormatListState :=
  acts.foldl (fun st a => apply_nav h a st)
    (ui_display_formats h (some fmts) initListState)

/-! Concrete fixtures used by witnesses and counterexamples. -/

/-- A sample variant descriptor with all fields present. -/
def mkFormat (s : String) : Format :=
  { format_id := some s, resolution := some "1280x720", ext := some "mp4",
    filesize := some 1000 }

/-- A five-element format list. -/
def fmts5 : List Format :=
  [mkFormat "f1", mkFormat "f2", mkFormat "f3", mkFormat "f4", mkFormat "f5"]

/-- The session state for `fmts5` on a content panel of height 9
(`visible_lines = 5`). -/
def ls5 : FormatListState := ui_display_formats 9 (some fmts5) initListState

/-- A progress snapshot with an unknown total (`total_bytes = 0`) and 500
bytes already downloaded. -/
def progress500 : DownloadProgress :=
  { initProgress with downloaded_bytes := 500 }

/-- A fifteen-element format list. -/
def fmts15 : List Format := (List.range 15).map (fun i => mkFormat (toString i))

/-- The session invariant for a list state built over `fmts` on a content
panel of height `h`: the state still holds `fmts`, the viewport height is
the rendered one, the selection is clamped to `[0, total-1]`, and the
viewport contains the selection. -/
def list_inv (h : Int) (fmts : List Format) (s : FormatListState) : Prop :=
  s.formats = some fmts ∧
  s.total_formats = (fmts.length : Int) ∧
  s.visible_lines = h - 4 ∧
  0 ≤ s.selected_index ∧
  s.selected_index ≤ s.total_formats - 1 ∧
  s.visible_start ≤ s.selected_index ∧
  s.selected_index < s.visible_start + s.visible_lines

/-! Helper lemmas about the redraw/scroll routine. -/

/-- Closed form of `update_format_display` on an initialized list state. -/
lemma update_format_display_eq (h : Int) (ls : FormatListState)
    (fs : List Format) (hf : ls.formats = some fs) :
    update_format_display h ls =
      { ls with
        visible_start :=
          if ls.selected_index < ls.visible_start then ls.selected_index
          else if ls.visible_start + ls.visible_lines ≤ ls.selected_index then
            ls.selected_index - ls.visible_lines + 1
          else ls.visible_start,
        visible_lines := h - 4 } := by
  unfold update_format_display ui_display_formats
  split_ifs <;> simp_all

/-- The redraw/scroll routine never changes the selection. -/
lemma update_format_display_selected (h : Int) (ls : FormatListState) :
    (update_format_display h ls).selected_index = ls.selected_index := by
  unfold update_format_display ui_display_formats
  cases hf : ls.formats <;> split_ifs <;> simp_all

/-- The redraw/scroll routine never changes the format count. -/
lemma update_format_display_total (h : Int) (ls : FormatListState) :
    (update_format_display h ls).total_formats = ls.total_formats := by
  unfold update_format_display ui_display_formats
  cases hf : ls.formats <;> split_ifs <;> simp_all

/-- The redraw/scroll routine never changes the format list. -/
lemma update_format_display_formats (h : Int) (ls : FormatListState) :
    (update_format_display h ls).formats = ls.formats := by
  unfold update_format_display ui_display_formats
  cases hf : ls.formats <;> split_ifs <;> simp_all

/-- After the redraw of an initialized state, the viewport holds the
selection, provided the selection was in range and at least one line is
visible. -/
lemma update_format_display_viewport (h : Int) (ls : FormatListState)
    (fs : List Format) (hf : ls.formats = some fs)
    (hlines : ls.visible_lines = h - 4) (hone : 1 ≤ h - 4) :
    (update_format_display h ls).visible_start ≤ ls.selected_index ∧
    ls.selected_index <
      (update_format_display h ls).visible_start +
        (update_format_display h ls).visible_lines := by
  rw [update_format_display_eq h ls fs hf]
  simp only
  split_ifs <;> omega

/-- Setting the selection to any in-range index and redrawing preserves the
session invariant. -/
lemma list_inv_set_selected (h : Int) (fmts : List Format)
    (s : FormatListState) (v : Int) (hinv : list_inv h fmts s)
    (hone : 1 ≤ h - 4) (hv0 : 0 ≤ v) (hv1 : v ≤ (fmts.length : Int) - 1) :
    list_inv h fmts (update_format_display h { s with selected_index := v }) := by
  obtain ⟨hf, ht, hl, _, _, _, _⟩ := hinv
  have hf' : ({ s with selected_index := v } : FormatListState).formats = some fmts := hf
  have hvp := update_format_display_viewport h { s with selected_index := v } fmts hf'
    (by simpa using hl) hone
  have hlines : (update_format_display h { s with selected_index := v }).visible_lines
      = h - 4 := by
    rw [update_format_display_eq h _ fmts hf']
  refine ⟨?_, ?_, hlines, ?_, ?_, ?_, ?_⟩
  · rw [update_format_display_formats]; exact hf'
  · rw [update_format_display_total]; simpa using ht
  · rw [update_format_display_selected]; simpa using hv0
  · rw [update_format_display_selected, update_format_display_total]
    simpa [ht] using hv1
  · simpa [update_format_display_selected] using hvp.1
  · simpa [update_format_display_selected] using hvp.2

/-- The `'a'` shortcut scan only produces indices below `i + r`. -/
lemma find_audio_index_lt (fs : List Format) :
    ∀ (r i j : Nat), find_audio_index fs i r = some j → i ≤ j ∧ j < i + r := by
  intro r
  induction r with
  | zero => intro i j hj; simp [find_audio_index] at hj
  | succ r ih =>
    intro i j hj
    unfold find_audio_index at hj
    split at hj
    · simp only [Option.some.injEq] at hj
      omega
    · have := ih (i + 1) j hj
      omega

/-- Every action the selection loop dispatches preserves the session
invariant (non-empty list, at least one visible line). -/
lemma list_inv_apply_nav (h : Int) (fmts : List Format) (a : NavAction)
    (s : FormatListState) (hne : fmts ≠ []) (hone : 1 ≤ h - 4)
    (hinv : list_inv h fmts s) : list_inv h fmts (apply_nav h a s) := by
  have hlen : 1 ≤ (fmts.length : Int) := by
    have := List.length_pos.mpr hne
    omega
  obtain ⟨hf, ht, hl, h0, h1, h2, h3⟩ := hinv
  have hinv' : list_inv h fmts s := ⟨hf, ht, hl, h0, h1, h2, h3⟩
  cases a with
  | up =>
    show list_inv h fmts (arrow_up h s)
    unfold arrow_up
    split_ifs with hpos
    · exact list_inv_set_selected h fmts s _ hinv' hone (by omega) (by omega)
    · exact hinv'
  | down =>
    show list_inv h fmts (arrow_down h s)
    unfold arrow_down
    split_ifs with hlt
    · exact list_inv_set_selected h fmts s _ hinv' hone (by omega) (by omega)
    · exact hinv'
  | pageUp =>
    show list_inv h fmts (do_page_up h s)
    unfold do_page_up
    refine list_inv_set_selected h fmts s _ hinv' hone ?_ ?_ <;>
      split_ifs <;> omega
  | pageDown =>
    show list_inv h fmts (do_page_down h s)
    unfold do_page_down
    refine list_inv_set_selected h fmts s _ hinv' hone ?_ ?_ <;>
      split_ifs <;> omega
  | home =>
    show list_inv h fmts (do_home h s)
    unfold do_home
    exact list_inv_set_selected h fmts s _ hinv' hone (by omega) (by omega)
  | toEnd =>
    show list_inv h fmts (do_end h s)
    unfold do_end
    exact list_inv_set_selected h fmts s _ hinv' hone (by omega) (by omega)
  | key c =>
    show list_inv h fmts (shortcut_step h c s)
    by_cases hb : c = 98 ∨ c = 66
    · simp only [shortcut_step, handle_format_shortcut, if_pos hb, if_true]
      exact list_inv_set_selected h fmts s _ hinv' hone (by omega) (by omega)
    · by_cases hw : c = 119 ∨ c = 87
      · simp only [shortcut_step, handle_format_shortcut, if_neg hb, if_pos hw, if_true]
        exact list_inv_set_selected h fmts s _ hinv' hone (by omega) (by omega)
      · by_cases ha : c = 97 ∨ c = 65
        · simp only [shortcut_step, handle_format_shortcut, if_neg hb, if_neg hw,
            if_pos ha]
          rcases hfa : find_audio_index (s.formats.getD []) 0 s.total_formats.toNat
            with _ | i
          · simpa [hfa] using hinv'
          · have hbound := (find_audio_index_lt (s.formats.getD []) _ _ _ hfa).2
            simp only [hfa, if_true]
            refine list_inv_set_selected h fmts s _ hinv' hone (by omega) ?_
            have htn : s.total_formats.toNat = fmts.length := by
              rw [ht]; omega
            rw [htn] at hbound
            omega
        · by_cases hd : 49 ≤ c ∧ c ≤ 57
          · by_cases hrange : c - 49 < s.total_formats
            · have hstep : shortcut_step h c s =
                  update_format_display h { s with selected_index := c - 49 } := by
                simp [shortcut_step, handle_format_shortcut, hb, hw, ha, hd, hrange]
              rw [hstep]
              exact list_inv_set_selected h fmts s _ hinv' hone (by omega) (by omega)
            · have hstep : shortcut_step h c s = s := by
                simp [shortcut_step, handle_format_shortcut, hb, hw, ha, hd, hrange]
              rw [hstep]
              exact hinv'
          · have hstep : shortcut_step h c s = s := by
              simp [shortcut_step, handle_format_shortcut, hb, hw, ha, hd]
            rw [hstep]
            exact hinv'

/-- The initial render of main.c establishes the session invariant. -/
lemma list_inv_init (h : Int) (fmts : List Format) (hne : fmts ≠ [])
    (hone : 1 ≤ h - 4) :
    list_inv h fmts (ui_display_formats h (some fmts) initListState) := by
  have hlen : 1 ≤ (fmts.length : Int) := by
    have := List.length_pos.mpr hne
    omega
  refine ⟨rfl, rfl, rfl, ?_, ?_, ?_, ?_⟩ <;>
    dsimp only [ui_display_formats, initListState] <;> omega

/-- The invariant is preserved along any action sequence. -/
lemma list_inv_run_nav (h : Int) (fmts : List Format) (hne : fmts ≠ [])
    (hone : 1 ≤ h - 4) (acts : List NavAction) :
    list_inv h fmts (run_nav h fmts acts) := by
  unfold run_nav
  have hbase := list_inv_init h fmts hne hone
  generalize ui_display_formats h (some fmts) initListState = s at hbase ⊢
  induction acts generalizing s with
  | nil => exact hbase
  | cons a rest ih =>
    simp only [List.foldl_cons]
    exact ih _ (list_inv_apply_nav h fmts a s hne hone hbase)

/-- Sanity check of the embedding against the spec's end-to-end example:
with 15 entries and a 10-line viewport (content height 14), pressing "down"
12 times yields `selected_index = 12` and `visible_start = 3`. -/
lemma run_nav_end_to_end_sanity :
    (run_nav 14 fmts15 (List.replicate 12 NavAction.down)).selected_index = 12 ∧
    (run_nav 14 fmts15 (List.replicate 12 NavAction.down)).visible_start = 3 := by
  decide

/-! Claim theorems. -/

/-- C10: for every non-negative animation frame, `get_spinner_char` returns
one of exactly the four characters `'|'`, `'/'`, `'-'`, `'\'`, and it is
periodic with period 4. -/
theorem c10_spinner_chars_and_period (frame : Nat) :
    (get_spinner_char frame = '|' ∨ get_spinner_char frame = '/' ∨
     get_spinner_char frame = '-' ∨ get_spinner_char frame = '\\') ∧
    get_spinner_char (frame + 4) = get_spinner_char frame := by
  constructor
  · have h4 : frame % 4 = 0 ∨ frame % 4 = 1 ∨ frame % 4 = 2 ∨ frame % 4 = 3 := by
      omega
    rcases h4 with h | h | h | h <;>
        simp only [get_spinner_char, spinner_chars, h]
    · exact Or.inl rfl
    · exact Or.inr (Or.inl rfl)
    · exact Or.inr (Or.inr (Or.inl rfl))
    · exact Or.inr (Or.inr (Or.inr rfl))
  · simp [get_spinner_char, Nat.add_mod_right]

/-- C2: the spec's speed-estimator scenario fails on the code.  Feeding a
zero-initialized progress the two samples `(t=0, bytes=0)` and
`(t=1, bytes=1000)` through `ui_update_progress` makes `ui_calculate_speed`
return 0, not the claimed 1000: the t=0 sample is coalesced into the
zero-initialized write cursor, `oldest_idx` is hardwired to ring slot 0
(which stays zero-initialized until the ring wraps), and `newest_idx` is
`sample_index - 1`, the slot before the one the update just wrote. -/
theorem c2_estimator_returns_zero_on_spec_scenario :
    ui_calculate_speed
        (ui_update_progress (ui_update_progress initProgress 0 0 0) 1000 0 1) = 0 ∧
    (ui_update_progress (ui_update_progress initProgress 0 0 0) 1000 0 1).download_speed
      = 0 ∧
    (ui_update_progress (ui_update_progress initProgress 0 0 0) 1000 0 1).samples
      = ⟨0, 0⟩ :: ⟨1, 1000⟩ :: List.replicate 8 ⟨0, 0⟩ := by
  decide

/-- C3 counterexample: a progress state with `total_bytes = 0` and
`downloaded_bytes = 500` is rendered by `ui_show_progress` as the numeric
bar at 0%, not as the indeterminate/spinner mode the claim requires. -/
theorem c3_total_zero_renders_bar_counterexample :
    ui_show_progress_mode progress500 = RenderMode.bar 0 ∧
    is_indeterminate (ui_show_progress_mode progress500) = false := by
  decide

/-- C3 amended: for every progress state with `total_bytes = 0`,
`ui_show_progress` renders the numeric bar mode with percent 0 (a 0% bar)
regardless of `downloaded_bytes`; the indeterminate/spinner mode is a
separate entry point (`ui_show_indeterminate_progress`) that
`ui_show_progress` never selects. -/
theorem c3_total_zero_renders_zero_bar (p : DownloadProgress)
    (h : p.total_bytes = 0) :
    ui_show_progress_mode p = RenderMode.bar 0 ∧
    is_indeterminate (ui_show_progress_mode p) = false := by
  simp [ui_show_progress_mode, is_indeterminate, h]

/-- C3 amended, witness at `progress500`. -/
theorem c3_total_zero_renders_zero_bar_witness :
    ui_show_progress_mode progress500 = RenderMode.bar 0 ∧
    is_indeterminate (ui_show_progress_mode progress500) = false :=
  c3_total_zero_renders_zero_bar progress500 (by decide)

/-- C6 counterexample: on a content panel of height 4 the render recomputes
`visible_lines = 4 - 4 = 0`, not at least 1 as the claim requires. -/
theorem c6_viewport_lines_zero_counterexample :
    (ui_display_formats 4 (some fmts5) initListState).visible_lines = 0 := by
  decide

/-- C6 amended: every render recomputes `visible_lines = content_height - 4`
with no clamping, so it is at least 1 exactly when the content panel has at
least 5 rows. -/
theorem c6_viewport_lines_formula (h : Int) (fmts : List Format)
    (ls : FormatListState) (hh : 5 ≤ h) :
    (ui_display_formats h (some fmts) ls).visible_lines = h - 4 ∧
    1 ≤ (ui_display_formats h (some fmts) ls).visible_lines := by
  unfold ui_display_formats
  cases ls.formats <;> simp <;> omega

/-- C6 amended, witness at height 9. -/
theorem c6_viewport_lines_formula_witness :
    (ui_display_formats 9 (some fmts5) initListState).visible_lines = 9 - 4 ∧
    1 ≤ (ui_display_formats 9 (some fmts5) initListState).visible_lines :=
  c6_viewport_lines_formula 9 fmts5 initListState (by decide)

/-- C7: every `ui_update_progress` call stores the counters and the update
time verbatim and leaves `current_stage` and `start_time` alone; it
recomputes `estimated_completion` as `now + (int)((total - downloaded) /
rate)` exactly when the freshly computed rate is positive and
`total > downloaded`, and otherwise leaves the previous (possibly stale)
estimate in place. -/
theorem c7_estimated_completion_frame (p : DownloadProgress)
    (downloaded total now : Int) :
    (ui_update_progress p downloaded total now).estimated_completion =
      (if (0 : ℚ) < (ui_update_progress p downloaded total now).download_speed ∧
          downloaded < total
       then now + ratTrunc (((total - downloaded : Int) : ℚ) /
              (ui_update_progress p downloaded total now).download_speed)
       else p.estimated_completion) ∧
    (ui_update_progress p downloaded total now).downloaded_bytes = downloaded ∧
    (ui_update_progress p downloaded total now).total_bytes = total ∧
    (ui_update_progress p downloaded total now).last_update = now ∧
    (ui_update_progress p downloaded total now).current_stage = p.current_stage ∧
    (ui_update_progress p downloaded total now).start_time = p.start_time := by
  unfold ui_update_progress
  dsimp only
  split_ifs <;> simp_all

/-- C9: inside the selection loop, a digit key `'1'`–`'9'` (codes 49–57)
selects the zero-based index `digit - 1` when that index is below
`total_formats`, and otherwise leaves the selection unchanged (the key is
silently ignored, not an error). -/
theorem c9_digit_shortcut (h c : Int) (ls : FormatListState)
    (h1 : 49 ≤ c) (h2 : c ≤ 57) :
    (shortcut_step h c ls).selected_index =
      (if c - 49 < ls.total_formats then c - 49 else ls.selected_index) := by
  have hb : ¬(c = 98 ∨ c = 66) := by omega
  have hw : ¬(c = 119 ∨ c = 87) := by omega
  have ha : ¬(c = 97 ∨ c = 65) := by omega
  by_cases hrange : c - 49 < ls.total_formats
  · have hstep : shortcut_step h c ls =
        update_format_display h { ls with selected_index := c - 49 } := by
      simp [shortcut_step, handle_format_shortcut, hb, hw, ha, hrange, h1, h2]
    rw [hstep, update_format_display_selected, if_pos hrange]
  · have hstep : shortcut_step h c ls = ls := by
      simp [shortcut_step, handle_format_shortcut, hb, hw, ha, hrange, h1, h2]
    rw [hstep, if_neg hrange]

/-- C9, witness: on the five-element list, `'5'` (code 53) selects index 4
and `'9'` (code 57) leaves the selection at 0. -/
theorem c9_digit_shortcut_witness :
    (shortcut_step 9 53 ls5).selected_index = 4 ∧
    (shortcut_step 9 57 ls5).selected_index = 0 :=
  ⟨(c9_digit_shortcut 9 53 ls5 (by decide) (by decide)).trans (by decide),
   (c9_digit_shortcut 9 57 ls5 (by decide) (by decide)).trans (by decide)⟩

/-- C8: with the selection in `[0, total-1]`, `navigate(+1)`
(`KEY_DOWN`) at the last index is a no-op on the whole state (selection and
viewport untouched), and neither `navigate(+1)` nor `navigate(-1)` ever
moves the selection outside `[0, total-1]`. -/
theorem c8_navigate_clamped (h : Int) (ls : FormatListState)
    (h0 : 0 ≤ ls.selected_index)
    (h1 : ls.selected_index ≤ ls.total_formats - 1) :
    (ls.selected_index = ls.total_formats - 1 → arrow_down h ls = ls) ∧
    0 ≤ (arrow_down h ls).selected_index ∧
    (arrow_down h ls).selected_index ≤ (arrow_down h ls).total_formats - 1 ∧
    0 ≤ (arrow_up h ls).selected_index ∧
    (arrow_up h ls).selected_index ≤ (arrow_up h ls).total_formats - 1 := by
  refine ⟨?_, ?_, ?_, ?_, ?_⟩
  · intro hlast
    unfold arrow_down
    rw [if_neg (by omega)]
  · unfold arrow_down
    split_ifs
    · simp only [update_format_display_selected, update_format_display_total]; omega
    · omega
  · unfold arrow_down
    split_ifs
    · simp only [update_format_display_selected, update_format_display_total]; omega
    · omega
  · unfold arrow_up
    split_ifs
    · simp only [update_format_display_selected, update_format_display_total]; omega
    · omega
  · unfold arrow_up
    split_ifs
    · simp only [update_format_display_selected, update_format_display_total]; omega
    · omega

/-- C8, witness: on the five-element session state moved to its last index,
`KEY_DOWN` is a no-op and both arrows stay in range. -/
theorem c8_navigate_clamped_witness :
    ((do_end 9 ls5).selected_index = (do_end 9 ls5).total_formats - 1 →
      arrow_down 9 (do_end 9 ls5) = do_end 9 ls5) ∧
    0 ≤ (arrow_down 9 (do_end 9 ls5)).selected_index ∧
    (arrow_down 9 (do_end 9 ls5)).selected_index ≤
      (arrow_down 9 (do_end 9 ls5)).total_formats - 1 ∧
    0 ≤ (arrow_up 9 (do_end 9 ls5)).selected_index ∧
    (arrow_up 9 (do_end 9 ls5)).selected_index ≤
      (arrow_up 9 (do_end 9 ls5)).total_formats - 1 :=
  c8_navigate_clamped 9 (do_end 9 ls5) (by decide) (by decide)

/-- C4: in the escape-disambiguation state machine of the selection loop,
`ESC` followed by a 100 ms timeout cancels the session (NULL result);
`ESC '[' 'A'` dispatches the navigate-up action (selection decremented when
positive) and continues the loop rather than cancelling; any other follow-up
byte after `ESC` is discarded and the loop resumes in the normal state. -/
theorem c4_escape_disambiguation (h : Int) (ls : FormatListState)
    (rest : List KeyEvent) (c : Int) :
    (ui_select_loop h (KeyEvent.key 27 :: KeyEvent.timeout :: rest) ls = some none) ∧
    (ui_select_loop h (KeyEvent.key 27 :: KeyEvent.key 91 :: KeyEvent.key 65 :: rest) ls =
      ui_select_loop h rest (arrow_up h ls)) ∧
    ((arrow_up h ls).selected_index =
      (if 0 < ls.selected_index then ls.selected_index - 1 else ls.selected_index)) ∧
    (c ≠ 91 → ui_select_loop h (KeyEvent.key 27 :: KeyEvent.key c :: rest) ls =
      ui_select_loop h rest ls) := by
  refine ⟨?_, ?_, ?_, ?_⟩
  · rw [ui_select_loop.eq_def]
    norm_num [KEY_UP, KEY_DOWN, KEY_PPAGE, KEY_NPAGE, KEY_HOME, KEY_END, KEY_ENTER]
  · rw [ui_select_loop.eq_def]
    norm_num [KEY_UP, KEY_DOWN, KEY_PPAGE, KEY_NPAGE, KEY_HOME, KEY_END, KEY_ENTER]
  · unfold arrow_up
    split_ifs with hp
    · rw [update_format_display_selected]
    · rfl
  · intro hne
    rw [ui_select_loop.eq_def]
    norm_num [hne, KEY_UP, KEY_DOWN, KEY_PPAGE, KEY_NPAGE, KEY_HOME, KEY_END,
      KEY_ENTER]

/-- C4, witness on the five-element session state. -/
theorem c4_escape_disambiguation_witness :
    ui_select_loop 9 [KeyEvent.key 27, KeyEvent.timeout] ls5 = some none ∧
    ui_select_loop 9 [KeyEvent.key 27, KeyEvent.key 66] ls5 =
      ui_select_loop 9 [] ls5 :=
  ⟨(c4_escape_disambiguation 9 ls5 [] 66).1,
   (c4_escape_disambiguation 9 ls5 [] 66).2.2.2 (by decide)⟩

/-- C5 counterexample: the "no selection" result of a cancellation is NOT
distinguishable from an error result of the selection operation — the error
return of `ui_select_format_interactive` with the UI unavailable is the very
same NULL result produced by pressing the quit key. -/
theorem c5_cancel_equals_error_counterexample :
    ui_select_format_interactive false 9 [] ls5 = some none ∧
    ui_select_format_interactive true 9 [KeyEvent.key 113] ls5 = some none := by
  decide

/-- C5 amended: Enter returns the `format_id` field of the descriptor at
`selected_index` (when present as a string); the quit key and a
disambiguated standalone escape both return the NULL "no selection" result;
but error paths (state/list NULL or ncurses unavailable) return that same
NULL, so cancellation is not distinguishable from an error. -/
theorem c5_confirm_and_cancel_results (h : Int) (ls : FormatListState)
    (fs : List Format) (f : Format) (s : String) (rest evs : List KeyEvent)
    (hf : ls.formats = some fs) (h0 : 0 ≤ ls.selected_index)
    (hget : fs.get? ls.selected_index.toNat = some f)
    (hid : f.format_id = some s) :
    ui_select_loop h (KeyEvent.key 10 :: rest) ls = some (some s) ∧
    ui_select_loop h (KeyEvent.key 113 :: rest) ls = some none ∧
    ui_select_loop h (KeyEvent.key 27 :: KeyEvent.timeout :: rest) ls = some none ∧
    ui_select_format_interactive false h evs ls = some none := by
  have hneg : ¬ls.selected_index < 0 := not_lt.mpr h0
  rw [List.get?_eq_getElem?] at hget
  refine ⟨?_, ?_, ?_, ?_⟩
  · rw [ui_select_loop.eq_def]
    norm_num [KEY_UP, KEY_DOWN, KEY_PPAGE, KEY_NPAGE, KEY_HOME, KEY_END,
      KEY_ENTER, enter_result, hf, hneg, hget, hid]
  · rw [ui_select_loop.eq_def]
    norm_num [KEY_UP, KEY_DOWN, KEY_PPAGE, KEY_NPAGE, KEY_HOME, KEY_END, KEY_ENTER]
  · rw [ui_select_loop.eq_def]
    norm_num [KEY_UP, KEY_DOWN, KEY_PPAGE, KEY_NPAGE, KEY_HOME, KEY_END, KEY_ENTER]
  · simp [ui_select_format_interactive]

/-- C5 amended, witness on the five-element session state. -/
theorem c5_confirm_and_cancel_results_witness :
    ui_select_loop 9 [KeyEvent.key 10] ls5 = some (some "f1") ∧
    ui_select_loop 9 [KeyEvent.key 113] ls5 = some none ∧
    ui_select_loop 9 [KeyEvent.key 27, KeyEvent.timeout] ls5 = some none ∧
    ui_select_format_interactive false 9 [] ls5 = some none :=
  c5_confirm_and_cancel_results 9 ls5 fmts5 (mkFormat "f1") "f1" [] []
    (by decide) (by decide) (by decide) (by decide)

/-- C1: for every non-empty format list and every sequence of navigation
actions (arrows, paging, home/end, letter and digit shortcuts) applied
through the selection loop from main.c's initial render, the list state
keeps the selection inside the viewport
(`visible_start ≤ selected_index < visible_start + visible_lines`) and
clamped to `[0, total-1]`.  The hypothesis `5 ≤ h` is the spec's data-model
requirement `viewport_lines > 0` expressed on the content-panel height
(`visible_lines = h - 4`; see C6 for what happens below it). -/
theorem c1_viewport_selection_invariant (fmts : List Format) (h : Int)
    (acts : List NavAction) (hne : fmts ≠ []) (hh : 5 ≤ h) :
    (run_nav h fmts acts).visible_start ≤ (run_nav h fmts acts).selected_index ∧
    (run_nav h fmts acts).selected_index <
      (run_nav h fmts acts).visible_start + (run_nav h fmts acts).visible_lines ∧
    0 ≤ (run_nav h fmts acts).selected_index ∧
    (run_nav h fmts acts).selected_index ≤
      (run_nav h fmts acts).total_formats - 1 := by
  obtain ⟨_, _, _, h0, h1, h2, h3⟩ := list_inv_run_nav h fmts hne (by omega) acts
  exact ⟨h2, h3, h0, h1⟩

/-- C1, witness: a mixed action sequence on the five-element list. -/
theorem c1_viewport_selection_invariant_witness :
    (run_nav 9 fmts5 [NavAction.down, NavAction.key 53, NavAction.pageUp,
        NavAction.toEnd, NavAction.up, NavAction.key 97]).visible_start ≤
      (run_nav 9 fmts5 [NavAction.down, NavAction.key 53, NavAction.pageUp,
        NavAction.toEnd, NavAction.up, NavAction.key 97]).selected_index ∧
    (run_nav 9 fmts5 [NavAction.down, NavAction.key 53, NavAction.pageUp,
        NavAction.toEnd, NavAction.up, NavAction.key 97]).selected_index <
      (run_nav 9 fmts5 [NavAction.down, NavAction.key 53, NavAction.pageUp,
        NavAction.toEnd, NavAction.up, NavAction.key 97]).visible_start +
        (run_nav 9 fmts5 [NavAction.down, NavAction.key 53, NavAction.pageUp,
          NavAction.toEnd, NavAction.up, NavAction.key 97]).visible_lines ∧
    0 ≤ (run_nav 9 fmts5 [NavAction.down, NavAction.key 53, NavAction.pageUp,
        NavAction.toEnd, NavAction.up, NavAction.key 97]).selected_index ∧
    (run_nav 9 fmts5 [NavAction.down, NavAction.key 53, NavAction.pageUp,
        NavAction.toEnd, NavAction.up, NavAction.key 97]).selected_index ≤
      (run_nav 9 fmts5 [NavAction.down, NavAction.key 53, NavAction.pageUp,
        NavAction.toEnd, NavAction.up, NavAction.key 97]).total_formats - 1 :=
  c1_viewport_selection_invariant fmts5 9
    [NavAction.down, NavAction.key 53, NavAction.pageUp,
     NavAction.toEnd, NavAction.up, NavAction.key 97]
    (by decide) (by decide)

end Ytdl
